import Mathlib

/-!
Verification development for the LLM-Checkmate agent
(`llm_checkmate_agent`: `scanner.py`, `sender.py`, `device_id.py`, `cli.py`).

The Python modules are shallowly embedded as total Lean functions.
External effects (hardware probes, the HTTP transport, the filesystem)
are passed in as explicit arguments describing their observable outcome,
so every code path of the Python functions becomes a branch of a pure
Lean function.  Python floats are modelled as rationals; `round(x, 2)`
is modelled as rounding to two decimal places (half-up); none of the
properties proved below depends on tie-breaking behaviour.
-/

/-- Model of Python `round(x, 2)`: round `q` to two decimal places. -/
def round2 (q : ℚ) : ℚ := (⌊q * 100 + 1 / 2⌋ : ℚ) / 100

/-- A (scalar) JSON value, as stored in the device-identity file and
as carried in report fields. -/
inductive JsonVal where
  | str (s : String)
  | num (q : ℚ)
  | bool (b : Bool)
  | null
deriving DecidableEq, Repr

/-- One GPU record as produced by `scanner.get_gpu_info`:
`{"name": ..., "vram_total_gb": ..., ("vram_free_gb": ...,) "source": ...}`. -/
structure GpuDevice where
  name : String
  vramTotalGb : ℚ
  vramFreeGb : Option ℚ
  source : String
deriving DecidableEq, Repr

/-- A raw device row as yielded by `GPUtil.getGPUs()`:
`memoryTotal`/`memoryFree` are in MiB (the code divides by 1024). -/
structure GputilDev where
  name : String
  memoryTotal : ℚ
  memoryFree : ℚ
deriving DecidableEq, Repr

/-- Strategy 1 of `get_gpu_info` (scanner.py lines 78-90): the devices
the `GPUtil` loop appended.  An import failure or an exception before the
first append contributes the empty list. -/
def gputilGpus (devs : List GputilDev) : List GpuDevice :=
  devs.map fun d =>
    ⟨d.name, round2 (d.memoryTotal / 1024), some (round2 (d.memoryFree / 1024)), "gputil"⟩

/-- A raw device as yielded by `torch.cuda.get_device_properties(i)`:
`totalMemory` is in bytes. -/
structure TorchProp where
  name : String
  totalMemory : ℚ
deriving DecidableEq, Repr

/-- Observable outcome of the PyTorch probe in strategy 2 of
`get_gpu_info` (scanner.py lines 92-111): import/exception failure,
CUDA available with the given device properties, CUDA unavailable but
MPS available, or neither backend available. -/
inductive TorchState where
  | failed
  | cuda (props : List TorchProp)
  | mps
  | neither
deriving DecidableEq, Repr

/-- Strategy 2 of `get_gpu_info`: the devices contributed by the
PyTorch fallback block. -/
def torchGpus : TorchState → List GpuDevice
  | .failed => []
  | .cuda props =>
      props.map fun p => ⟨p.name, round2 (p.totalMemory / 2 ^ 30), none, "torch"⟩
  | .mps => [⟨"Apple Unified Memory (MPS)", 0, none, "torch-mps"⟩]
  | .neither => []

/-- VRAM computation of the WMIC strategy (scanner.py lines 128-129):
`vram_gb = round(abs(vram_bytes) / (1024**3), 2); if vram_gb < 0.1: vram_gb = 0`. -/
def wmicVramGb (vramBytes : ℤ) : ℚ :=
  if round2 ((|vramBytes| : ℚ) / 2 ^ 30) < 1 / 10 then 0
  else round2 ((|vramBytes| : ℚ) / 2 ^ 30)

/-- Strategy 3 of `get_gpu_info` (scanner.py lines 113-137): the parsed
WMIC table rows, each a device name together with the parsed
`AdapterRAM` integer (`none` when `int(...)` failed, in which case the
code keeps `vram_bytes = 0`).  `none` for the whole table means the
WMIC command itself raised, contributing no devices. -/
def wmicGpus : Option (List (String × Option ℤ)) → List GpuDevice
  | none => []
  | some rows =>
      rows.map fun r => ⟨r.1, wmicVramGb (r.2.getD 0), none, "wmic"⟩

/-- `scanner.get_gpu_info` (scanner.py lines 72-139): strategy 1
(GPUtil), then — only if the list is still empty — strategy 2 (torch),
then — only if still empty and on Windows — strategy 3 (WMIC). -/
def getGpuInfo (devs : List GputilDev) (torch : TorchState)
    (isWindows : Bool) (wmicRows : Option (List (String × Option ℤ))) :
    List GpuDevice :=
  let g1 := gputilGpus devs
  if g1.isEmpty then
    let g2 := torchGpus torch
    if g2.isEmpty then
      if isWindows then wmicGpus wmicRows else []
    else g2
  else g1

/-- `platform` values read by `scan_system` (scanner.py lines 146-150). -/
structure OsRaw where
  system : String
  release : String
  version : String
deriving DecidableEq, Repr

/-- Raw CPU values read by `get_cpu_info` (scanner.py lines 16-44) when
the probe succeeds: resolved brand string (after the WMIC fallback),
`platform.machine()`, `psutil.cpu_count(...)`, frequency and usage. -/
structure CpuRaw where
  brand : String
  architecture : String
  physicalCores : ℕ
  logicalCores : ℕ
  freqMax : ℚ
  usagePercent : ℚ
deriving DecidableEq, Repr

/-- Raw `psutil.virtual_memory()` values, in bytes (plus percent). -/
structure RamRaw where
  total : ℚ
  available : ℚ
  percent : ℚ
deriving DecidableEq, Repr

/-- Raw `psutil.disk_usage('/')` values, in bytes (plus percent). -/
structure DiskRaw where
  total : ℚ
  free : ℚ
  percent : ℚ
deriving DecidableEq, Repr

/-- One top-level section of the snapshot dictionary built by
`scan_system`: either a JSON object of scalar fields, or (for the
`"gpu"` key) a list of GPU records. -/
inductive SnapSection where
  | obj (fields : List (String × JsonVal))
  | gpuList (gpus : List GpuDevice)
deriving DecidableEq, Repr

/-- `scanner.get_cpu_info`: `none` models the `except` branch that
returns `{}`; otherwise the six-field info dictionary is built. -/
def getCpuInfo : Option CpuRaw → SnapSection
  | none => .obj []
  | some c => .obj
      [("brand", .str c.brand),
       ("architecture", .str c.architecture),
       ("physical_cores", .num c.physicalCores),
       ("logical_cores", .num c.logicalCores),
       ("frequency_max", .num c.freqMax),
       ("usage_percent", .num c.usagePercent)]

/-- `scanner.get_ram_info`: byte counts are converted to GiB
(`bytes / 1024**3` rounded to 2 decimals); `none` models the
`except` branch returning `{}`. -/
def getRamInfo : Option RamRaw → SnapSection
  | none => .obj []
  | some r => .obj
      [("total_gb", .num (round2 (r.total / 2 ^ 30))),
       ("available_gb", .num (round2 (r.available / 2 ^ 30))),
       ("percent_used", .num r.percent)]

/-- `scanner.get_disk_info`: same conversion for the root volume;
`none` models the `except` branch returning `{}`. -/
def getDiskInfo : Option DiskRaw → SnapSection
  | none => .obj []
  | some d => .obj
      [("total_gb", .num (round2 (d.total / 2 ^ 30))),
       ("free_gb", .num (round2 (d.free / 2 ^ 30))),
       ("percent_used", .num d.percent)]

/-- `scanner.scan_system` (scanner.py lines 141-157): the aggregated
snapshot dictionary, keys in source order. -/
def scanSystem (os : OsRaw) (cpu : Option CpuRaw) (ram : Option RamRaw)
    (disk : Option DiskRaw) (devs : List GputilDev) (torch : TorchState)
    (isWindows : Bool) (wmicRows : Option (List (String × Option ℤ))) :
    List (String × SnapSection) :=
  [("os", .obj
      [("system", .str os.system),
       ("release", .str os.release),
       ("version", .str os.version)]),
   ("cpu", getCpuInfo cpu),
   ("ram", getRamInfo ram),
   ("storage", getDiskInfo disk),
   ("gpu", .gpuList (getGpuInfo devs torch isWindows wmicRows))]

/-- Model of Python `s.rstrip('/')`: drop every trailing `'/'`.
URLs are modelled as lists of characters. -/
def rstripSlash (s : List Char) : List Char :=
  (s.reverse.dropWhile (fun c => c = '/')).reverse

/-- The canonical registration path appended by `sender.send_data`. -/
def registerPathChars : List Char := "/api/device/register".toList

/-- URL normalisation of `sender.send_data` (sender.py lines 18-19):
if the URL does not already end with `/api/device/register`, trailing
slashes are stripped and the path is appended. -/
def normalizeUrl (url : List Char) : List Char :=
  if registerPathChars.isSuffixOf url then url
  else rstripSlash url ++ registerPathChars

/-- The report payload assembled by `cli.run_scan` (cli.py lines 70-74):
`{"device_id": ..., "metrics": ..., "timestamp": "Now"}`. -/
structure Payload where
  device_id : String
  metrics : List (String × SnapSection)
  timestamp : String
deriving DecidableEq, Repr

/-- Payload assembly in `cli.run_scan`: the timestamp field is the
literal string `"Now"`. -/
def buildPayload (deviceId : String) (metrics : List (String × SnapSection)) :
    Payload :=
  ⟨deviceId, metrics, "Now"⟩

/-- Observable outcome of the single `requests.post` call in
`sender.send_data`: a response with an HTTP status, a parsed JSON body
and the error text `raise_for_status` would use, or one of the
transport failures.  A body that fails to parse as JSON is subsumed by
`otherError` (the generic `except Exception` branch). -/
inductive HttpOutcome where
  | response (status : ℕ) (body : JsonVal) (reason : String)
  | timeout
  | connError
  | otherError (msg : String)
deriving DecidableEq, Repr

/-- The second component of `send_data`'s return pair: the parsed JSON
response body on success, or the error-description string. -/
inductive SendResult where
  | json (j : JsonVal)
  | err (s : String)
deriving DecidableEq, Repr

/-- Full observable result of `sender.send_data`: the URL the request
was sent to, the success flag, and the result value. -/
structure SendOutput where
  sentUrl : List Char
  success : Bool
  result : SendResult
deriving DecidableEq, Repr

/-- `sender.send_data` (sender.py lines 13-44).  `raise_for_status`
raises `HTTPError` exactly for 4xx/5xx statuses; the except-clauses
map each failure to `(False, <description>)`. -/
def sendData (payload : Payload) (apiUrl : List Char) (o : HttpOutcome) :
    SendOutput :=
  let u := normalizeUrl apiUrl
  match o with
  | .response status body reason =>
      if 400 ≤ status ∧ status < 600 then
        ⟨u, false, .err ("HTTP Error: " ++ reason)⟩
      else
        ⟨u, true, .json body⟩
  | .timeout => ⟨u, false, .err "Timeout"⟩
  | .connError => ⟨u, false, .err "Connection Error"⟩
  | .otherError msg => ⟨u, false, .err msg⟩

/-- State of the identity file `~/.llm_checkmate/device.json` as seen by
`device_id.get_or_create_device_id`: absent, present but unreadable
(`open`/read raises), present but not parseable as JSON (`json.load`
raises), or a parsed JSON object with its fields. -/
inductive FileContent where
  | absent
  | unreadable
  | notJson
  | jsonObj (fields : List (String × JsonVal))
deriving DecidableEq, Repr

/-- The file states in which `get_or_create_device_id` falls through to
generating a fresh identifier: the file is absent, unreadable or
malformed, or is a JSON object without a `device_id` key. -/
def fileLacksId : FileContent → Prop
  | .absent => True
  | .unreadable => True
  | .notJson => True
  | .jsonObj fields => fields.lookup "device_id" = none

instance (fs : FileContent) : Decidable (fileLacksId fs) :=
  match fs with
  | .absent => .isTrue trivial
  | .unreadable => .isTrue trivial
  | .notJson => .isTrue trivial
  | .jsonObj fields =>
      inferInstanceAs (Decidable (fields.lookup "device_id" = none))

/-- `device_id.get_or_create_device_id` (device_id.py lines 24-48).
`freshId` is the value of `str(uuid.uuid4())` this run would generate,
`now` the value of `str(datetime.now())`, and `writeOk` whether the
persistence write succeeds.  Returns the identifier handed back to the
caller together with the file state after the call. -/
def getOrCreateDeviceId (fs : FileContent) (freshId : String)
    (writeOk : Bool) (now : String) : JsonVal × FileContent :=
  match fs with
  | .jsonObj fields =>
      match fields.lookup "device_id" with
      | some v => (v, .jsonObj fields)
      | none =>
          if writeOk then
            (.str freshId,
             .jsonObj [("device_id", .str freshId), ("created_at", .str now)])
          else (.str freshId, .jsonObj fields)
  | other =>
      if writeOk then
        (.str freshId,
         .jsonObj [("device_id", .str freshId), ("created_at", .str now)])
      else (.str freshId, other)

/-- One hexadecimal digit, lowercase, as in Python's UUID formatting. -/
def hexChar (n : ℕ) : Char :=
  if n < 10 then Char.ofNat (48 + n) else Char.ofNat (87 + n)

/-- Fixed-width lowercase hexadecimal rendering of `n`, most
significant digit first. -/
def hexDigits : ℕ → ℕ → List Char
  | 0, _ => []
  | w + 1, n => hexDigits w (n / 16) ++ [hexChar (n % 16)]

/-- `str(uuid.UUID(int=n))`: the 32 hex digits of the 128-bit value,
grouped 8-4-4-4-12 with hyphens. -/
def uuidChars (n : ℕ) : List Char :=
  let h := hexDigits 32 n
  h.take 8 ++ '-' :: (h.drop 8).take 4 ++ '-' :: (h.drop 12).take 4
    ++ '-' :: (h.drop 16).take 4 ++ '-' :: h.drop 20

/-- The string form of a freshly generated UUID. -/
def uuidString (n : ℕ) : String := String.mk (uuidChars n)

/-- Whether a character is a lowercase hexadecimal digit. -/
def isHexCh (c : Char) : Bool :=
  ('0' ≤ c && c ≤ '9') || ('a' ≤ c && c ≤ 'f')

/-- The standard UUID textual convention: five hyphen-separated groups
of hex digits with lengths 8, 4, 4, 4 and 12. -/
def UuidFormat (s : List Char) : Prop :=
  ∃ g1 g2 g3 g4 g5 : List Char,
    s = g1 ++ '-' :: g2 ++ '-' :: g3 ++ '-' :: g4 ++ '-' :: g5 ∧
    g1.length = 8 ∧ g2.length = 4 ∧ g3.length = 4 ∧ g4.length = 4 ∧
    g5.length = 12 ∧
    ∀ c ∈ g1 ++ g2 ++ g3 ++ g4 ++ g5, isHexCh c = true

/-- Result of one `cli.run_scan` invocation: the process exit status
and, on success, the dashboard link that is printed. -/
structure RunResult where
  exitCode : ℕ
  link : Option (List Char)
deriving DecidableEq, Repr

/-- Model of Python `s.split(sep)[0]`: the text before the first
occurrence of `sep` (the whole string when `sep` does not occur). -/
def takeUntilSub (sep : List Char) : List Char → List Char
  | [] => []
  | c :: rest =>
      if sep.isPrefixOf (c :: rest) then []
      else c :: takeUntilSub sep rest

/-- `cli.run_scan` from payload assembly onwards (cli.py lines 70-102):
builds the payload, calls `send_data`, and on success returns exit
status 0 printing `backend_url.split('/api')[0] + "/?deviceId=" + id`,
while on failure it calls `sys.exit(1)`. -/
def runScan (backendUrl : List Char) (deviceId : List Char)
    (metrics : List (String × SnapSection)) (o : HttpOutcome) : RunResult :=
  let payload := buildPayload (String.mk deviceId) metrics
  let s := sendData payload backendUrl o
  if s.success then
    ⟨0, some (takeUntilSub "/api".toList backendUrl
        ++ "/?deviceId=".toList ++ deviceId)⟩
  else ⟨1, none⟩

/-- Evaluation rule for `round2`: if `z` is the integer nearest to
`100 q` (rounding half up), then `round2 q = z / 100`. -/
theorem round2_eval (q : ℚ) (z : ℤ) (h₁ : (z : ℚ) ≤ q * 100 + 1 / 2)
    (h₂ : q * 100 + 1 / 2 < z + 1) : round2 q = z / 100 := by
  unfold round2
  rw [show (⌊q * 100 + 1 / 2⌋ : ℤ) = z from Int.floor_eq_iff.mpr ⟨h₁, h₂⟩]

/-- `hexDigits` always produces exactly its requested width. -/
theorem hexDigits_length (w : ℕ) : ∀ n, (hexDigits w n).length = w := by
  induction w with
  | zero => intro n; rfl
  | succ w ih => intro n; simp [hexDigits, ih]

/-- A single hex digit of a value below 16 is a hex character. -/
theorem hexChar_hex (m : ℕ) (h : m < 16) : isHexCh (hexChar m) = true := by
  interval_cases m <;> decide

/-- Every character produced by `hexDigits` is a hex character. -/
theorem hexDigits_hex (w : ℕ) : ∀ n c, c ∈ hexDigits w n → isHexCh c = true := by
  induction w with
  | zero => intro n c hc; simp [hexDigits] at hc
  | succ w ih =>
      intro n c hc
      rcases List.mem_append.1 hc with h | h
      · exact ih _ _ h
      · rcases List.mem_singleton.1 h with rfl
        exact hexChar_hex _ (Nat.mod_lt _ (by norm_num))

/-- Every generated identifier matches the UUID textual convention. -/
theorem uuidChars_format (n : ℕ) : UuidFormat (uuidChars n) := by
  refine ⟨(hexDigits 32 n).take 8, ((hexDigits 32 n).drop 8).take 4,
    ((hexDigits 32 n).drop 12).take 4, ((hexDigits 32 n).drop 16).take 4,
    (hexDigits 32 n).drop 20, rfl, ?_, ?_, ?_, ?_, ?_, ?_⟩
  · simp [hexDigits_length]
  · simp [hexDigits_length]
  · simp [hexDigits_length]
  · simp [hexDigits_length]
  · simp [hexDigits_length]
  · intro c hc
    apply hexDigits_hex 32 n
    simp only [List.mem_append] at hc
    rcases hc with (((h | h) | h) | h) | h
    · exact List.take_subset _ _ h
    · exact List.drop_subset _ _ (List.take_subset _ _ h)
    · exact List.drop_subset _ _ (List.take_subset _ _ h)
    · exact List.drop_subset _ _ (List.take_subset _ _ h)
    · exact List.drop_subset _ _ h

/-- C1: the GPU collector uses the first detection strategy (GPUtil,
then torch, then Windows WMIC, in this fixed order) that yields at
least one device; once an earlier strategy yields devices the later
strategies are not consulted and cannot affect the result; when every
strategy yields nothing the returned list is the empty list. -/
theorem gpu_first_strategy_wins
    (devs : List GputilDev) (torch : TorchState) (isWindows : Bool)
    (wmicRows : Option (List (String × Option ℤ))) :
    (gputilGpus devs ≠ [] →
      getGpuInfo devs torch isWindows wmicRows = gputilGpus devs ∧
      ∀ t2 w2 r2, getGpuInfo devs t2 w2 r2 = gputilGpus devs) ∧
    (gputilGpus devs = [] → torchGpus torch ≠ [] →
      getGpuInfo devs torch isWindows wmicRows = torchGpus torch ∧
      ∀ w2 r2, getGpuInfo devs torch w2 r2 = torchGpus torch) ∧
    (gputilGpus devs = [] → torchGpus torch = [] →
      getGpuInfo devs torch isWindows wmicRows =
        if isWindows then wmicGpus wmicRows else []) ∧
    (gputilGpus devs = [] → torchGpus torch = [] → wmicGpus wmicRows = [] →
      getGpuInfo devs torch isWindows wmicRows = []) := by
  refine ⟨fun h1 => ⟨?_, fun t2 w2 r2 => ?_⟩,
    fun h1 h2 => ⟨?_, fun w2 r2 => ?_⟩, fun h1 h2 => ?_, fun h1 h2 h3 => ?_⟩ <;>
    simp [getGpuInfo, List.isEmpty_iff, h1]
  · simp [h2]
  · simp [h2]
  · simp [h2]
  · simp [h2, h3]

/-- C1 witness: with one GPUtil device, a live torch CUDA probe and a
populated WMIC table, the collector returns exactly the GPUtil list. -/
theorem gpu_first_strategy_wins_witness :
    gputilGpus [⟨"GeForce RTX 3060", 12288, 11000⟩] ≠ [] ∧
    getGpuInfo [⟨"GeForce RTX 3060", 12288, 11000⟩]
        (.cuda [⟨"NVIDIA GeForce RTX 3060", 12884901888⟩]) true
        (some [("Intel(R) UHD Graphics", some 134217728)]) =
      gputilGpus [⟨"GeForce RTX 3060", 12288, 11000⟩] := by
  have h : gputilGpus [⟨"GeForce RTX 3060", 12288, 11000⟩] ≠ [] := by
    simp [gputilGpus]
  exact ⟨h, ((gpu_first_strategy_wins [⟨"GeForce RTX 3060", 12288, 11000⟩]
    (.cuda [⟨"NVIDIA GeForce RTX 3060", 12884901888⟩]) true
    (some [("Intel(R) UHD Graphics", some 134217728)])).1 h).1⟩

/-- C2: the snapshot always has exactly the five top-level sections
`os`, `cpu`, `ram`, `storage`, `gpu` in this order, the `gpu` section
is always a (possibly empty) list, and a failed CPU/RAM/disk probe
contributes an empty object instead of aborting the snapshot. -/
theorem scan_snapshot_shape (os : OsRaw) (cpu : Option CpuRaw)
    (ram : Option RamRaw) (disk : Option DiskRaw) (devs : List GputilDev)
    (torch : TorchState) (isWindows : Bool)
    (wmicRows : Option (List (String × Option ℤ))) :
    (scanSystem os cpu ram disk devs torch isWindows wmicRows).map Prod.fst =
      ["os", "cpu", "ram", "storage", "gpu"] ∧
    (∃ gs, (scanSystem os cpu ram disk devs torch isWindows wmicRows).lookup
      "gpu" = some (.gpuList gs)) ∧
    (cpu = none →
      (scanSystem os cpu ram disk devs torch isWindows wmicRows).lookup
        "cpu" = some (.obj [])) ∧
    (ram = none →
      (scanSystem os cpu ram disk devs torch isWindows wmicRows).lookup
        "ram" = some (.obj [])) ∧
    (disk = none →
      (scanSystem os cpu ram disk devs torch isWindows wmicRows).lookup
        "storage" = some (.obj [])) := by
  refine ⟨rfl, ⟨getGpuInfo devs torch isWindows wmicRows, ?_⟩, ?_, ?_, ?_⟩
  · simp [scanSystem, List.lookup]
  · rintro rfl; simp [scanSystem, List.lookup, getCpuInfo]
  · rintro rfl; simp [scanSystem, List.lookup, getRamInfo]
  · rintro rfl; simp [scanSystem, List.lookup, getDiskInfo]

/-- C2 witness: with every probe failing, the snapshot still has the
five sections, the CPU/RAM/storage sections are empty objects, and the
GPU section is the empty list. -/
theorem scan_snapshot_shape_witness :
    (scanSystem ⟨"Linux", "6.1", "#1"⟩ none none none [] .failed false
        none).map Prod.fst = ["os", "cpu", "ram", "storage", "gpu"] ∧
    (scanSystem ⟨"Linux", "6.1", "#1"⟩ none none none [] .failed false
        none).lookup "cpu" = some (.obj []) ∧
    (scanSystem ⟨"Linux", "6.1", "#1"⟩ none none none [] .failed false
        none).lookup "gpu" = some (.gpuList []) := by
  refine ⟨(scan_snapshot_shape ⟨"Linux", "6.1", "#1"⟩ none none none []
    .failed false none).1,
    (scan_snapshot_shape ⟨"Linux", "6.1", "#1"⟩ none none none []
    .failed false none).2.2.1 rfl, ?_⟩
  simp [scanSystem, List.lookup, getGpuInfo, torchGpus, gputilGpus]

/-- C3: `send_data` normalises the URL before transmission — a URL
already ending in `/api/device/register` is left unchanged, otherwise
trailing slashes are trimmed and the path is appended; in particular
`http://host:3001` is sent to `http://host:3001/api/device/register`. -/
theorem send_url_normalized (payload : Payload) (url : List Char)
    (o : HttpOutcome) :
    (sendData payload url o).sentUrl = normalizeUrl url ∧
    (registerPathChars.isSuffixOf url = true → normalizeUrl url = url) ∧
    (registerPathChars.isSuffixOf url = false →
      normalizeUrl url = rstripSlash url ++ registerPathChars) ∧
    normalizeUrl "http://host:3001".toList =
      "http://host:3001/api/device/register".toList ∧
    normalizeUrl "http://host:3001/api/device/register".toList =
      "http://host:3001/api/device/register".toList := by
  refine ⟨?_, fun h => by simp [normalizeUrl, h],
    fun h => by simp [normalizeUrl, h], by decide, by decide⟩
  cases o with
  | response st b r => simp only [sendData]; split <;> rfl
  | timeout => rfl
  | connError => rfl
  | otherError m => rfl

/-- C3 witness: a base URL with a trailing slash has the slash trimmed
and the registration path appended, and the normalised URL is the one
the request is sent to. -/
theorem send_url_normalized_witness :
    registerPathChars.isSuffixOf "http://host:3001/".toList = false ∧
    normalizeUrl "http://host:3001/".toList =
      rstripSlash "http://host:3001/".toList ++ registerPathChars ∧
    (sendData (buildPayload "d" []) "http://host:3001/".toList
      .timeout).sentUrl = normalizeUrl "http://host:3001/".toList := by
  have h : registerPathChars.isSuffixOf "http://host:3001/".toList = false := by
    decide
  exact ⟨h,
    (send_url_normalized (buildPayload "d" []) "http://host:3001/".toList
      .timeout).2.2.1 h,
    (send_url_normalized (buildPayload "d" []) "http://host:3001/".toList
      .timeout).1⟩

/-- C4 counterexample: on a connection error `send_data` returns
`False` together with the string `"Connection Error"` (with a space),
not the string `"ConnectionError"` stated by the claim. -/
theorem send_conn_error_string_cex :
    (sendData (buildPayload "d" []) "http://host:3001".toList
      .connError).success = false ∧
    (sendData (buildPayload "d" []) "http://host:3001".toList
      .connError).result = .err "Connection Error" ∧
    (sendData (buildPayload "d" []) "http://host:3001".toList
      .connError).result ≠ .err "ConnectionError" := by
  refine ⟨rfl, rfl, ?_⟩
  decide

/-- C4 (amended): when the endpoint is unreachable `send_data` returns
success `false` with the error-description string `"Connection Error"`,
and `run_scan` then terminates the process with exit status 1. -/
theorem send_conn_error_behavior (payload : Payload) (url id : List Char)
    (metrics : List (String × SnapSection)) :
    sendData payload url .connError =
      ⟨normalizeUrl url, false, .err "Connection Error"⟩ ∧
    runScan url id metrics .connError = ⟨1, none⟩ :=
  ⟨rfl, rfl⟩

/-- C5 counterexample: the WMIC strategy takes the absolute value of a
negative (overflowed) `AdapterRAM` reading, so `-1073741824` (minus one
GiB) is reported as `1`, not clamped to `0` as the claim states. -/
theorem wmic_vram_negative_cex :
    ((-1073741824 : ℤ) < 0) ∧ wmicVramGb (-1073741824) = 1 ∧
    wmicVramGb (-1073741824) ≠ 0 := by
  have habs : ((|(-1073741824 : ℤ)| : ℚ) / 2 ^ 30) = 1 := by norm_num
  have hr : round2 ((|(-1073741824 : ℤ)| : ℚ) / 2 ^ 30) = 1 := by
    rw [habs, round2_eval 1 100 (by norm_num) (by norm_num)]; norm_num
  have h1 : wmicVramGb (-1073741824) = 1 := by
    rw [wmicVramGb, hr]; norm_num
  exact ⟨by norm_num, h1, by rw [h1]; norm_num⟩

/-- C5 (amended): in the WMIC strategy the parsed `AdapterRAM` value is
absolute-valued; when `|bytes| / 1024^3` rounded to two decimals is
below 0.1 the reported `vram_total_gb` is exactly 0, and otherwise it
is that rounded quotient; the record reported for a parsed row carries
exactly this value. -/
theorem wmic_vram_clamping (b : ℤ) :
    (round2 ((|b| : ℚ) / 2 ^ 30) < 1 / 10 → wmicVramGb b = 0) ∧
    (1 / 10 ≤ round2 ((|b| : ℚ) / 2 ^ 30) →
      wmicVramGb b = round2 ((|b| : ℚ) / 2 ^ 30)) ∧
    (∀ nm : String,
      wmicGpus (some [(nm, some b)]) = [⟨nm, wmicVramGb b, none, "wmic"⟩]) := by
  refine ⟨fun h => by rw [wmicVramGb, if_pos h],
    fun h => by rw [wmicVramGb, if_neg (not_lt.mpr h)],
    fun nm => by simp [wmicGpus]⟩

/-- C5 witness: a 2 GiB `AdapterRAM` reading is reported as the rounded
quotient (2), and the WMIC record carries that value. -/
theorem wmic_vram_clamping_witness :
    (1 / 10 : ℚ) ≤ round2 ((|(2147483648 : ℤ)| : ℚ) / 2 ^ 30) ∧
    wmicVramGb 2147483648 = round2 ((|(2147483648 : ℤ)| : ℚ) / 2 ^ 30) ∧
    wmicGpus (some [("AMD Radeon", some 2147483648)]) =
      [⟨"AMD Radeon", wmicVramGb 2147483648, none, "wmic"⟩] := by
  have habs : ((|(2147483648 : ℤ)| : ℚ) / 2 ^ 30) = 2 := by norm_num
  have hr : round2 ((|(2147483648 : ℤ)| : ℚ) / 2 ^ 30) = 2 := by
    rw [habs, round2_eval 2 200 (by norm_num) (by norm_num)]; norm_num
  have h : (1 / 10 : ℚ) ≤ round2 ((|(2147483648 : ℤ)| : ℚ) / 2 ^ 30) := by
    rw [hr]; norm_num
  exact ⟨h, (wmic_vram_clamping 2147483648).2.1 h,
    (wmic_vram_clamping 2147483648).2.2 "AMD Radeon"⟩

/-- C6: with an intact identity file whose JSON object has a
`device_id` string field, every call returns that stored identifier and
leaves the file unchanged — so a second call (with a different fresh
candidate, write outcome and clock) still returns the same string. -/
theorem device_id_idempotent (fields : List (String × JsonVal)) (s : String)
    (f1 f2 : String) (w1 w2 : Bool) (n1 n2 : String)
    (h : fields.lookup "device_id" = some (.str s)) :
    getOrCreateDeviceId (.jsonObj fields) f1 w1 n1 =
      (.str s, .jsonObj fields) ∧
    getOrCreateDeviceId
        (getOrCreateDeviceId (.jsonObj fields) f1 w1 n1).2 f2 w2 n2 =
      (.str s, .jsonObj fields) := by
  have h1 : getOrCreateDeviceId (.jsonObj fields) f1 w1 n1 =
      (.str s, .jsonObj fields) := by
    simp [getOrCreateDeviceId, h]
  refine ⟨h1, ?_⟩
  rw [h1]
  simp [getOrCreateDeviceId, h]

/-- C6 witness: two successive calls against a concrete intact file
both return the stored identifier and never rewrite the file. -/
theorem device_id_idempotent_witness :
    [("device_id", JsonVal.str "11111111-2222-3333-4444-555555555555")].lookup
      "device_id" = some (.str "11111111-2222-3333-4444-555555555555") ∧
    getOrCreateDeviceId
        (.jsonObj [("device_id",
          JsonVal.str "11111111-2222-3333-4444-555555555555")]) "f1" true "t1" =
      (.str "11111111-2222-3333-4444-555555555555",
       .jsonObj [("device_id",
         JsonVal.str "11111111-2222-3333-4444-555555555555")]) := by
  have h : [("device_id",
      JsonVal.str "11111111-2222-3333-4444-555555555555")].lookup
      "device_id" = some (.str "11111111-2222-3333-4444-555555555555") := by
    decide
  exact ⟨h, (device_id_idempotent _ _ "f1" "f2" true true "t1" "t2" h).1⟩

/-- C7: when the identity file is absent, unreadable or malformed
(including a JSON object without the `device_id` key), the call returns
a fresh identifier in standard UUID textual format, on a successful
write persists `{device_id, created_at}` over the old content, and on a
failed write still returns the fresh identifier for this run. -/
theorem device_id_regeneration (fs : FileContent) (n : ℕ) (writeOk : Bool)
    (now : String) (h : fileLacksId fs) :
    (getOrCreateDeviceId fs (uuidString n) writeOk now).1 =
      .str (uuidString n) ∧
    UuidFormat (uuidChars n) ∧
    (writeOk = true →
      (getOrCreateDeviceId fs (uuidString n) writeOk now).2 =
        .jsonObj [("device_id", .str (uuidString n)),
                  ("created_at", .str now)]) ∧
    (writeOk = false →
      (getOrCreateDeviceId fs (uuidString n) writeOk now).2 = fs) := by
  cases fs with
  | absent => cases writeOk <;> simp [getOrCreateDeviceId, uuidChars_format n]
  | unreadable =>
      cases writeOk <;> simp [getOrCreateDeviceId, uuidChars_format n]
  | notJson => cases writeOk <;> simp [getOrCreateDeviceId, uuidChars_format n]
  | jsonObj fields =>
      have h' : fields.lookup "device_id" = none := h
      cases writeOk <;> simp [getOrCreateDeviceId, h', uuidChars_format n]

/-- C7 witness: with an absent file and a failing persistence write,
the fresh identifier (here generated from the 128-bit value 7) is still
returned and the file stays absent. -/
theorem device_id_regeneration_witness :
    fileLacksId .absent ∧
    (getOrCreateDeviceId .absent (uuidString 7) false "t").1 =
      .str (uuidString 7) ∧
    (getOrCreateDeviceId .absent (uuidString 7) false "t").2 = .absent := by
  refine ⟨trivial, (device_id_regeneration .absent 7 false "t" trivial).1,
    (device_id_regeneration .absent 7 false "t" trivial).2.2.2 rfl⟩

/-- C8: a success-status response with a JSON body makes `send_data`
return `True` with the parsed body, and `run_scan` then exits with
status 0, printing a dashboard link that carries the device id as the
`deviceId` query parameter. -/
theorem send_success_exit_zero (payload : Payload) (url id : List Char)
    (metrics : List (String × SnapSection)) (st : ℕ) (body : JsonVal)
    (reason : String) (h : st < 400) :
    sendData payload url (.response st body reason) =
      ⟨normalizeUrl url, true, .json body⟩ ∧
    runScan url id metrics (.response st body reason) =
      ⟨0, some (takeUntilSub "/api".toList url
          ++ "/?deviceId=".toList ++ id)⟩ ∧
    ∃ base, takeUntilSub "/api".toList url ++ "/?deviceId=".toList ++ id =
      base ++ ("?deviceId=".toList ++ id) := by
  have hs : ¬(400 ≤ st ∧ st < 600) := by omega
  refine ⟨by simp [sendData, hs], ?_,
    ⟨takeUntilSub "/api".toList url ++ ['/'], by simp⟩⟩
  simp [runScan, sendData, hs, buildPayload]

/-- C8 witness: an HTTP 201 response with body `{"status": "ok"}`
(modelled by its scalar value) yields success, exit status 0, and the
dashboard link `http://host:3001/?deviceId=abc`. -/
theorem send_success_exit_zero_witness :
    (201 < 400) ∧
    sendData (buildPayload "abc" []) "http://host:3001".toList
        (.response 201 (.str "ok") "") =
      ⟨normalizeUrl "http://host:3001".toList, true, .json (.str "ok")⟩ ∧
    runScan "http://host:3001".toList "abc".toList []
        (.response 201 (.str "ok") "") =
      ⟨0, some (takeUntilSub "/api".toList "http://host:3001".toList
          ++ "/?deviceId=".toList ++ "abc".toList)⟩ := by
  refine ⟨by norm_num, ?_, ?_⟩
  · exact (send_success_exit_zero (buildPayload "abc" [])
      "http://host:3001".toList "abc".toList [] 201 (.str "ok") ""
      (by norm_num)).1
  · exact (send_success_exit_zero (buildPayload "abc" [])
      "http://host:3001".toList "abc".toList [] 201 (.str "ok") ""
      (by norm_num)).2.1

/-- C9: the timestamp field of the assembled report payload is the
constant literal string `"Now"`, identical across all runs. -/
theorem payload_timestamp_constant (id1 id2 : String)
    (m1 m2 : List (String × SnapSection)) :
    (buildPayload id1 m1).timestamp = "Now" ∧
    (buildPayload id1 m1).timestamp = (buildPayload id2 m2).timestamp :=
  ⟨rfl, rfl⟩

/-- C10: whatever JSON value sits under the `device_id` key — an empty
string, a number, `null` — is returned unchanged, with no validation
and no regeneration. -/
theorem device_id_no_validation (fields : List (String × JsonVal))
    (v : JsonVal) (f : String) (w : Bool) (n : String)
    (h : fields.lookup "device_id" = some v) :
    getOrCreateDeviceId (.jsonObj fields) f w n = (v, .jsonObj fields) := by
  simp [getOrCreateDeviceId, h]

/-- C10 witness: a `device_id` whose value is JSON `null` is returned
as-is instead of triggering regeneration. -/
theorem device_id_no_validation_witness :
    [("device_id", JsonVal.null)].lookup "device_id" = some JsonVal.null ∧
    getOrCreateDeviceId (.jsonObj [("device_id", JsonVal.null)]) "f" true "t" =
      (JsonVal.null, .jsonObj [("device_id", JsonVal.null)]) := by
  have h : [("device_id", JsonVal.null)].lookup "device_id" =
      some JsonVal.null := by decide
  exact ⟨h, device_id_no_validation _ _ "f" true "t" h⟩
